import Mathlib

/-!
Verification development for the fundamental-analyst repository.

The Python sources are shallowly embedded:
* `av_client.py` — numeric string conversion, TTM construction, 5-year CAGR,
  financial-metric derivation, and the fetch + file-cache workflow;
* `adamodaran_utils.py` — the industry topic accessors and their
  filter-with-sentinel tail;
* `industry_info.py` — the ticker resolver and record builder.

Python ints and floats are modelled exactly: ints as `Int`, floats as `Rat`
(the float values occurring here are small decimals, for which rational
arithmetic agrees with IEEE evaluation on every input used in a theorem).
The real-exponentiation step of the CAGR routine is modelled over `Real`.
Dictionaries are association lists; external inputs (spreadsheets, the
network, the file system) are explicit environment parameters.

String manipulation is carried out on `List Char` (the character content of
the Python `str`), so that every operation is a plain structural recursion.
-/

set_option maxRecDepth 100000

namespace FundApp

/-! ## Python string primitives (on `List Char`) -/

/-- Whitespace stripped by Python's `str.strip()` (ASCII subset). -/
def isPyWs (c : Char) : Bool :=
  c = ' ' ∨ c = '\t' ∨ c = '\n' ∨ c = '\r' ∨ c = '\x0b' ∨ c = '\x0c'

/-- `str.strip()`. -/
def pyStrip (l : List Char) : List Char :=
  ((l.dropWhile isPyWs).reverse.dropWhile isPyWs).reverse

/-- Lower-case a single ASCII character (Python `str.lower` on this data). -/
def lowerChar (c : Char) : Char :=
  if 'A' ≤ c ∧ c ≤ 'Z' then Char.ofNat (c.toNat + 32) else c

/-- Upper-case a single ASCII character (Python `str.upper` on this data). -/
def upperChar (c : Char) : Char :=
  if 'a' ≤ c ∧ c ≤ 'z' then Char.ofNat (c.toNat - 32) else c

/-- `str.lower()`. -/
def pyLower (l : List Char) : List Char := l.map lowerChar

/-- `str.upper()` lifted back to `String` (used on ticker symbols). -/
def pyUpper (s : String) : String := String.mk (s.data.map upperChar)

/-- Does `sub` occur as a contiguous segment of `l`?  (Python `in`.) -/
def containsSeg (sub : List Char) : List Char → Bool
  | [] => sub.isEmpty
  | c :: rest => List.isPrefixOf sub (c :: rest) || containsSeg sub rest

/-- Split a character list at every occurrence of the character `sep`
(Python `str.split(sep)`). -/
def splitOnChar (sep : Char) : List Char → List (List Char)
  | [] => [[]]
  | c :: rest =>
    match splitOnChar sep rest with
    | [] => if c = sep then [[], []] else [[c]]
    | h :: t => if c = sep then [] :: h :: t else (c :: h) :: t

/-- Numeric value of a nonempty all-digit character list. -/
def parseDigits (l : List Char) : Option Nat :=
  if l = [] then none
  else if l.all Char.isDigit then
    some (l.foldl (fun acc c => acc * 10 + (c.toNat - 48)) 0)
  else none

/-- Python `int(s)`: optional sign, then decimal digits.  (Surrounding
whitespace and `_` digit separators never occur in this data flow and are
not modelled.) -/
def pyParseInt (l : List Char) : Option Int :=
  match l with
  | '-' :: rest => (parseDigits rest).map (fun n => -(n : Int))
  | '+' :: rest => (parseDigits rest).map (fun n => (n : Int))
  | _ => (parseDigits l).map (fun n => (n : Int))

/-- Python `float(s)` on a plain decimal string: optional sign, then
`digits`, `digits.digits`, `digits.` or `.digits`.  (Exponent forms and the
words `inf`/`nan` never occur in this data flow and are not modelled.) -/
def pyParseFloat (l : List Char) : Option Rat :=
  let core (t : List Char) : Option Rat :=
    match splitOnChar '.' t with
    | [ip] => (parseDigits ip).map (fun n => (n : Rat))
    | [ip, fp] =>
        if ip = [] ∧ fp = [] then none
        else
          let ipn := if ip = [] then some 0 else parseDigits ip
          let fpn := if fp = [] then some 0 else parseDigits fp
          match ipn, fpn with
          | some a, some b => some ((a : Rat) + (b : Rat) / ((10 : Rat) ^ fp.length))
          | _, _ => none
    | _ => none
  match l with
  | '-' :: rest => (core rest).map Neg.neg
  | '+' :: rest => core rest
  | _ => core l

/-! ## Python numbers -/

/-- A Python number: `int` or `float` (floats modelled as exact rationals). -/
inductive PyNum where
  | i (n : Int)
  | f (q : Rat)
  deriving Repr, DecidableEq

/-- Numeric value of a Python number. -/
def PyNum.toRat : PyNum → Rat
  | .i n => (n : Rat)
  | .f q => q

/-- Is this Python number a `float`? -/
def PyNum.isFloat : PyNum → Bool
  | .i _ => false
  | .f _ => true

/-- Python `+` on numbers: `int + int` is `int`, anything with a `float` is `float`. -/
def PyNum.add : PyNum → PyNum → PyNum
  | .i a, .i b => .i (a + b)
  | .i a, .f b => .f ((a : Rat) + b)
  | .f a, .i b => .f (a + (b : Rat))
  | .f a, .f b => .f (a + b)

/-- A Python value as stored in statement/overview dictionaries:
`None`, a number, or a string. -/
inductive PyVal where
  | vNone
  | vNum (n : PyNum)
  | vStr (s : String)
  deriving Repr, DecidableEq

/-- Round half to even to an integer (the tie rule of Python's `round`
and NumPy's `np.round`). -/
def rhe (q : Rat) : Int :=
  let fl := ⌊q⌋
  let r := q - (fl : Rat)
  if r < 1/2 then fl
  else if 1/2 < r then fl + 1
  else if Even fl then fl else fl + 1

/-- `round(q, d)` / `np.round(q, d)`: round to `d` decimal places, half to even. -/
def nround (q : Rat) (d : Nat) : Rat :=
  (rhe (q * (10 : Rat) ^ d) : Rat) / (10 : Rat) ^ d

/-- Python `int(x)` on a float: truncation toward zero. -/
def pyTrunc (q : Rat) : Int :=
  if 0 ≤ q then ⌊q⌋ else ⌈q⌉

/-! ## `_convert_num` (`av_client.py` lines 45–66) -/

/-- `_convert_num`: convert an AlphaVantage numeric string to int/float, or
`None`.  Strips whitespace, treats `""` and `"none"` (case-insensitive) as
`None`, removes thousands separators, turns `(x)` into `-x`, tries `float`
when a `.` is present and `int` otherwise, falling back to `float` and
finally to `None`. -/
def convert_num (s : Option String) : Option PyNum :=
  match s with
  | none => none
  | some s0 =>
    let s1 := pyStrip s0.data
    if s1 = [] ∨ pyLower s1 = "none".data then none
    else
      let s2 := s1.filter (fun c => ¬ (c = ','))
      let s3 := if List.isPrefixOf ['('] s2 ∧ s2.getLast? = some ')' then
                  '-' :: (s2.drop 1).dropLast
                else s2
      if s3.contains '.' then
        match pyParseFloat s3 with
        | some q => some (.f q)
        | none => none
      else
        match pyParseInt s3 with
        | some n => some (.i n)
        | none =>
          match pyParseFloat s3 with
          | some q => some (.f q)
          | none => none

/-! ## Statements and TTM construction (`av_client.py` lines 69–106) -/

/-- A quarterly or annual report: a flat mapping of line-item name to
string-encoded value (`dict.get` is association-list lookup). -/
def Report := List (String × String)
  deriving DecidableEq

/-- `report.get(k)`: `None` when the key is absent. -/
def Report.get (r : Report) (k : String) : Option String :=
  List.lookup k r

/-- A statement payload as returned by the provider: `annualReports` and
`quarterlyReports` arrays (absent arrays modelled as `[]`, matching
`stmt.get(...) or []`). -/
structure Statement where
  annualReports : List Report
  quarterlyReports : List Report
  deriving DecidableEq

/-- The synthetic TTM statement: the summed fields, plus the
`_ttm_from_quarters` traceability list of source period end-dates. -/
structure TTM where
  fields : List (String × PyVal)
  ttm_from_quarters : List (Option String)
  deriving DecidableEq

/-- All keys present across the given reports, first occurrence first
(the iteration set `keys` of `build_ttm_from_statement`). -/
def unionKeys (reports : List Report) : List String :=
  reports.foldl (fun acc q => acc ++ (q.map Prod.fst).filter (fun k => ¬ acc.contains k)) []

/-- The value stored for key `k` in the TTM dict: housekeeping keys are
copied from the most recent report; other keys are summed with the
int-unless-any-float rule of the Python loop. -/
def ttmValue (latest4 : List Report) (k : String) : PyVal :=
  if k = "fiscalDateEnding" ∨ k = "reportedCurrency" then
    match (latest4.headD []).get k with
    | some s => .vStr s
    | none => .vNone
  else
    let vals := latest4.map (fun q => convert_num (q.get k))
    if vals.all (fun v => v = none) then .vNone
    else
      let acc := vals.foldl
        (fun (p : Rat × Bool) v =>
          match v with
          | none => p
          | some (.i n) => (p.1 + (n : Rat), p.2)
          | some (.f q) => (p.1 + q, true))
        ((0 : Rat), false)
      if acc.2 then .vNum (.f acc.1) else .vNum (.i acc.1.num)

/-- `build_ttm_from_statement`: `None` for a missing/falsy statement or an
empty quarterly-report list; otherwise sum the latest 4 quarterly reports
field-by-field. -/
def build_ttm_from_statement (stmt : Option Statement) : Option TTM :=
  match stmt with
  | none => none
  | some st =>
    let qreports := st.quarterlyReports
    if qreports = [] then none
    else
      let latest4 := qreports.take 4
      some { fields := (unionKeys latest4).map (fun k => (k, ttmValue latest4 k)),
             ttm_from_quarters := latest4.map (fun q => q.get "fiscalDateEnding") }

/-! ## 5-year CAGR (`av_client.py` lines 109–140)

The fifth root is real exponentiation, so this definition lives over `ℝ`
and is noncomputable; everything up to the root is exact. -/

/-- Round half to even on a real number. -/
noncomputable def rheR (x : Real) : Int :=
  let fl := ⌊x⌋
  if x - (fl : Real) < 1/2 then fl
  else if 1/2 < x - (fl : Real) then fl + 1
  else if Even fl then fl else fl + 1

/-- `round(x, 2)` on a real number. -/
noncomputable def roundR2 (x : Real) : Real :=
  (rheR (x * 100) : Real) / 100

/-- `compute_5yr_cagr_from_annuals`: requires at least six annual reports
and two strictly positive convertible endpoint values; returns
`(v0/v5) ** (1/5) - 1` rounded to 2 decimals, else `None`. -/
noncomputable def compute_5yr_cagr_from_annuals
    (stmt : Option Statement) (value_key : String) : Option Real :=
  match stmt with
  | none => none
  | some st =>
    let areports := st.annualReports
    if areports.length < 6 then none
    else
      let v_latest := convert_num ((areports.headD []).get value_key)
      let v_earlier := convert_num ((areports.drop 5).headD [] |>.get value_key)
      match v_latest, v_earlier with
      | some vl, some ve =>
        if ve.toRat ≤ 0 ∨ vl.toRat ≤ 0 then none
        else some (roundR2 (((vl.toRat : Real) / (ve.toRat : Real)) ^ ((1 : Real)/5) - 1))
      | _, _ => none

/-! ## Financial metrics (`av_client.py` lines 285–412, derivation part)

The derivation section reads the TTM dictionaries through `dict.get`; all
keys it reads hold numeric values or `None` (they are produced by
`build_ttm_from_statement`'s summing branch), so the dictionaries are
modelled as association lists into `Option PyNum`, with absent keys and
stored `None` both reading as `none`, exactly like `d.get(k) ... is None`. -/

/-- A statement/overview dictionary restricted to numeric fields. -/
def FinDict := List (String × Option PyNum)

/-- `d.get(k)`: `None` for an absent key or a stored `None`. -/
def getv (d : FinDict) (k : String) : Option PyNum :=
  (List.lookup k d).join

/-- `_safe_div`: `None` if either operand is `None` or the denominator is
zero, else float division. -/
def safe_div (a b : Option PyNum) : Option Rat :=
  match a, b with
  | some x, some y => if y.toRat = 0 then none else some (x.toRat / y.toRat)
  | _, _ => none

/-- Total debt: the combined `shortLongTermDebtTotal` figure, or the sum of
the non-`None` short- and long-term components (Python `sum` starts from
the int `0`), or `None` when no component is present. -/
def total_debt_of (bal : FinDict) : Option PyNum :=
  match getv bal "shortLongTermDebtTotal" with
  | some d => some d
  | none =>
    let parts := [getv bal "shortTermDebt", getv bal "longTermDebt"].filterMap id
    if parts = [] then none
    else some (parts.foldl PyNum.add (.i 0))

/-- COGS: the direct `costOfRevenue` figure, with the
`revenue - gross profit` float fallback when it is absent. -/
def cogs_of (income : FinDict) : Option PyNum :=
  match getv income "costOfRevenue" with
  | some c => some c
  | none =>
    match getv income "totalRevenue", getv income "grossProfit" with
    | some r, some g => some (.f (r.toRat - g.toRat))
    | _, _ => none

/-- The record returned by `compute_financial_metrics`. -/
structure Metrics where
  revenue : Option PyNum
  gross_margin : Option Rat
  ebit_margin : Option Rat
  net_margin : Option Rat
  receivable_days : Option Int
  inventory_days : Option Int
  payable_days : Option Int
  debt_to_equity : Option Rat
  return_on_capital : Option PyNum
  return_on_equity : Option PyNum
  beta : Option Rat
  rev_cagr_5y : Option PyNum
  deriving DecidableEq

/-- The ratio-derivation body of `compute_financial_metrics` (lines
309–412), as a function of the two TTM dictionaries and the overview. -/
def compute_financial_metrics_core (income bal overview : FinDict) : Metrics :=
  let revenue := getv income "totalRevenue"
  let gross_profit := getv income "grossProfit"
  let operating_income := getv income "operatingIncome"
  let net_income := getv income "netIncome"
  let net_receivables := getv bal "currentNetReceivables"
  let inventory := getv bal "inventory"
  let accounts_payable := getv bal "currentAccountsPayable"
  let total_debt := total_debt_of bal
  let total_equity := getv bal "totalShareholderEquity"
  let gross_margin := match safe_div gross_profit revenue with
    | some q => some (nround q 2)
    | none => none
  let ebit_margin := match safe_div operating_income revenue with
    | some q => some (nround q 2)
    | none => none
  let net_margin := match safe_div net_income revenue with
    | some q => some (nround q 2)
    | none => none
  let cogs := cogs_of income
  let receivable_days := match net_receivables, revenue with
    | some nr, some r => if r.toRat = 0 then none
                         else some (pyTrunc (nr.toRat / r.toRat * 365))
    | _, _ => none
  let inventory_days := match inventory, cogs with
    | some iv, some c => if c.toRat = 0 then none
                         else some (pyTrunc (iv.toRat / c.toRat * 365))
    | _, _ => none
  let payable_days := match accounts_payable, cogs with
    | some ap, some c => if c.toRat = 0 then none
                         else some (pyTrunc (ap.toRat / c.toRat * 365))
    | _, _ => none
  let debt_to_equity := match total_debt, total_equity with
    | some d, some e => if e.toRat = 0 then none
                        else some (nround (d.toRat / e.toRat) 1)
    | _, _ => none
  let beta := match getv overview "Beta" with
    | some b => some (nround b.toRat 2)
    | none => none
  { revenue := revenue
    gross_margin := gross_margin
    ebit_margin := ebit_margin
    net_margin := net_margin
    receivable_days := receivable_days
    inventory_days := inventory_days
    payable_days := payable_days
    debt_to_equity := debt_to_equity
    return_on_capital := getv overview "ReturnOnAssetsTTM"
    return_on_equity := getv overview "ReturnOnEquityTTM"
    beta := beta
    rev_cagr_5y := getv overview "RevCAGR5y" }

/-! ## Industry topic accessors (`adamodaran_utils.py` lines 220–425)

A vendor table is its index (row labels) with per-row column values; a
missing value (`NaN`) is `none`.  `get_adamodar_file` reads external
spreadsheets, so it is an environment parameter `AdamodarEnv` mapping the
logical file name to its table.  The two-level-header `vebitda` table is
keyed by flattened `"group::column"` names.  List mutation
(`industry_list.append(...)`) is modelled by returning the mutated list
alongside the dataframe. -/

/-- A vendor dataframe: row label ↦ (column name ↦ value, `NaN` = `none`). -/
abbrev Table := List (String × List (String × Option Rat))

/-- `df.loc[row, col]` with missing row/column/`NaN` all reading as `none`
(pandas alignment semantics). -/
def Table.cell (t : Table) (row col : String) : Option Rat :=
  ((List.lookup row t).bind (fun r => List.lookup col r)).join

/-- Column names of a dataframe (taken from its first row). -/
def Table.colNames (t : Table) : List String :=
  match t with
  | [] => []
  | r :: _ => r.2.map Prod.fst

/-- The spreadsheet environment: logical file name ↦ loaded table. -/
abbrev AdamodarEnv := String → Table

/-- The sentinel appended to a caller-supplied industry list.  The source
writes it with a missing closing parenthesis — the literal below is the
code's exact string. -/
def total_market_sentinel : String := "Total Market (without financials"

/-- The row label of the aggregate row actually present in the vendor
tables (and named in the accessors' docstrings): note the closing
parenthesis, absent from `total_market_sentinel`. -/
def total_market_row : String := "Total Market (without financials)"

/-- The shared accessor tail for a non-`None` industry list:
`industry_list.append('Total Market (without financials')` followed by
`df[df.index.isin(industry_list)]`.  Returns the filtered frame and the
mutated list. -/
def sentinel_filter (df : Table) (l : List String) : Table × List String :=
  let l2 := l ++ [total_market_sentinel]
  (df.filter (fun r => l2.contains r.1), l2)

/-- Selected/renamed columns of `get_ind_fundamentals` (new name, source column). -/
def fundamentalsCols : List (String × String) :=
  [("Revenue", "Revenues ($ millions)"),
   ("Gross Profit", "Gross Profit ($ millions)"),
   ("EBITDA", "EBITDA ($ millions)"),
   ("EBIT", "EBIT (Operating Income) ($ millions)"),
   ("Net Income", "Net Income ( $ millions)")]

/-- `np.round(x / scale).fillna(0).astype(int)` applied to one cell. -/
def roundScaleFill (scale : Rat) (c : Option Rat) : Option Rat :=
  some (match c with
        | some q => ((rhe (q / scale) : Int) : Rat)
        | none => 0)

/-- `np.round(x * scale).fillna(0).astype(int)` applied to one cell. -/
def roundMulFill (scale : Rat) (c : Option Rat) : Option Rat :=
  some (match c with
        | some q => ((rhe (q * scale) : Int) : Rat)
        | none => 0)

/-- `get_ind_fundamentals`: the `DollarUS` columns scaled to billions,
rounded, zero-filled; then the sentinel filter when a list is supplied. -/
def get_ind_fundamentals (env : AdamodarEnv) (industry_list : Option (List String)) :
    Table × Option (List String) :=
  let data_df := env "DollarUS"
  let fundamentals_df : Table := data_df.map (fun r =>
    (r.1, fundamentalsCols.map (fun pc =>
      (pc.1, roundScaleFill 1000 (List.lookup pc.2 r.2).join))))
  match industry_list with
  | none => (fundamentals_df, none)
  | some l => let p := sentinel_filter fundamentals_df l; (p.1, some p.2)

/-- Selected/renamed margin columns of `get_ind_profitability`. -/
def profitabilityCols : List (String × String) :=
  [("Gross Margin", "Gross Margin"),
   ("Net Margin", "Net Margin"),
   ("EBIT Margin", "After-tax Lease & R&D adj Margin"),
   ("EBITDA_Margin", "EBITDA/Sales"),
   ("R&D Margin", "R&D/Sales"),
   ("SG&A Margin", "SG&A/ Sales")]

/-- EVA-file columns added by `get_ind_profitability`. -/
def evaCols : List String := ["ROE", "(ROE - COE)", "ROC", "(ROC - WACC)"]

/-- `get_ind_profitability`: margins ×100 rounded zero-filled from the
`margin` file, EVA-file return columns aligned onto the same index, the
EVA dollar column scaled to billions; then the sentinel filter. -/
def get_ind_profitability (env : AdamodarEnv) (industry_list : Option (List String)) :
    Table × Option (List String) :=
  let data_df := env "margin"
  let eva_df := env "EVA"
  let profitability_df : Table := data_df.map (fun r =>
    (r.1,
      profitabilityCols.map (fun pc =>
        (pc.1, roundMulFill 100 (List.lookup pc.2 r.2).join))
      ++ evaCols.map (fun c =>
        (c, (List.lookup r.1 eva_df).bind (fun r2 => roundMulFill 100 (List.lookup c r2).join)))
      ++ [("EVA", (List.lookup r.1 eva_df).bind
            (fun r2 => roundScaleFill 1000 (List.lookup "EVA (US $ millions)" r2).join))]))
  match industry_list with
  | none => (profitability_df, none)
  | some l => let p := sentinel_filter profitability_df l; (p.1, some p.2)

/-- `get_ind_efficiency`: DSO from the working-capital ratios; DSI and DPO
cross-computed against the (already filtered) fundamentals revenue and the
derived COGS; revenue-per-employee aligned in; then the sentinel filter —
note the list passed to the internal `get_ind_fundamentals` call has
already received one sentinel when the tail appends a second. -/
def get_ind_efficiency (env : AdamodarEnv) (industry_list : Option (List String)) :
    Table × Option (List String) :=
  let data_df := env "wcdata"
  let p := get_ind_fundamentals env industry_list
  let fundamentals_df := p.1
  let emp_df := env "Employee"
  let efficiency_df : Table := data_df.map (fun r =>
    let dso := ((List.lookup "Acc Rec/ Sales" r.2).join).map
      (fun q => ((rhe (q * 365) : Int) : Rat))
    let rev := Table.cell fundamentals_df r.1 "Revenue"
    let gp := Table.cell fundamentals_df r.1 "Gross Profit"
    let cogs := match rev, gp with
      | some a, some b => some (a - b)
      | _, _ => none
    let dsi := match (List.lookup "Inventory/Sales" r.2).join, rev, cogs with
      | some ratio, some a, some c =>
          if c = 0 then none else some ((rhe (ratio * a * 365 / c) : Int) : Rat)
      | _, _, _ => none
    let dpo := match (List.lookup "Acc Pay/ Sales" r.2).join, rev, cogs with
      | some ratio, some a, some c =>
          if c = 0 then none else some ((rhe (ratio * a * 365 / c) : Int) : Rat)
      | _, _, _ => none
    (r.1, [("DSO", dso), ("DSI", dsi), ("DPO", dpo),
           ("Revenues per Employee  ($)", Table.cell emp_df r.1 "Revenues per Employee  ($)")]))
  match p.2 with
  | none => (efficiency_df, none)
  | some l => let q := sentinel_filter efficiency_df l; (q.1, some q.2)

/-- `startswith` on plain strings, via character lists. -/
def strStartsWith (s p : String) : Bool := List.isPrefixOf p.data s.data

/-- `get_ind_risk`: firm counts, leverage and the regex-selected average
beta from the `betas` file (column names stripped), cost-of-capital
columns ×100 rounded to 1 decimal from the `wacc` file, and the
money-losing share aligned from `pedata`; then the sentinel filter. -/
def get_ind_risk (env : AdamodarEnv) (industry_list : Option (List String)) :
    Table × Option (List String) :=
  let data_df := env "betas"
  let average_beta_colname :=
    ((Table.colNames data_df).filter (fun c => strStartsWith c "Average")).headD ""
  let stripped : Table := data_df.map (fun r =>
    (r.1, r.2.map (fun c => (String.mk (pyStrip c.1.data), c.2))))
  let wacc_df := env "wacc"
  let pe_df := env "pedata"
  let risk_df : Table := stripped.map (fun r =>
    (r.1,
      [("Number of firms", (List.lookup "Number of firms" r.2).join),
       ("D/E", ((List.lookup "D/E Ratio" r.2).join).map
          (fun q => ((rhe (q * 100) : Int) : Rat))),
       ("Beta", ((List.lookup average_beta_colname r.2).join).map (fun q => nround q 2))]
      ++ ["Cost of Equity", "After-tax Cost of Debt", "Cost of Capital"].map (fun c =>
        (c, (Table.cell wacc_df r.1 c).map (fun q => nround (q * 100) 1)))
      ++ [("% of Money Losing firms",
           Table.cell pe_df r.1 "% of Money Losing firms (Trailing)")]))
  match industry_list with
  | none => (risk_df, none)
  | some l => let p := sentinel_filter risk_df l; (p.1, some p.2)

/-- `get_ind_multiples`: book-value, earnings and sales multiples gathered
across four files (the two-level `vebitda` header addressed by its
`(group, column)` pair), everything rounded to 1 decimal; then the
sentinel filter. -/
def get_ind_multiples (env : AdamodarEnv) (industry_list : Option (List String)) :
    Table × Option (List String) :=
  let pbv_df := env "pbvdata"
  let pe_df := env "pedata"
  let ps_df := env "psdata"
  let vebitda_df := env "vebitda"
  let multiples_df : Table := pbv_df.map (fun r =>
    (r.1,
      ([("PBV", (List.lookup "PBV" r.2).join),
        ("EV/ Invested Capital", (List.lookup "EV/ Invested Capital" r.2).join)]
       ++ ["Current PE", "Trailing PE", "Forward PE"].map (fun c =>
            (c, Table.cell pe_df r.1 c))
       ++ ["Price/Sales", "EV/Sales"].map (fun c => (c, Table.cell ps_df r.1 c))
       ++ [("EV/EBITDA", Table.cell vebitda_df r.1 "Only positive EBITDA firms::EV/EBITDA"),
           ("EV/EBIT", Table.cell vebitda_df r.1 "Only positive EBITDA firms::EV/EBIT")]
      ).map (fun c => (c.1, c.2.map (fun q => nround q 1)))))
  match industry_list with
  | none => (multiples_df, none)
  | some l => let p := sentinel_filter multiples_df l; (p.1, some p.2)

/-- Selected/renamed columns of `get_ind_demand`. -/
def demandCols : List (String × String) :=
  [("Net Income CAGR (past 5y)", "CAGR in Net Income- Last 5 years"),
   ("Revenue CAGR (past 5y)", "CAGR in Revenues- Last 5 years"),
   ("Revenue CAGR (next 2y)", "Expected Growth in Revenues - Next 2 years"),
   ("Revenue CAGR (next 5y)", "Expected Growth in Revenues - Next 5 years")]

/-- `get_ind_demand`: historical and expected growth columns ×100 rounded
zero-filled from the `histgr` file; then the sentinel filter. -/
def get_ind_demand (env : AdamodarEnv) (industry_list : Option (List String)) :
    Table × Option (List String) :=
  let data_df := env "histgr"
  let demand_df : Table := data_df.map (fun r =>
    (r.1, demandCols.map (fun pc =>
      (pc.1, roundMulFill 100 (List.lookup pc.2 r.2).join))))
  match industry_list with
  | none => (demand_df, none)
  | some l => let p := sentinel_filter demand_df l; (p.1, some p.2)

/-! ## Ticker resolution (`industry_info.py`, `adamodaran_utils.py` lines 174–201) -/

/-- A row of the raw industry spreadsheet (`indname.xlsx`). -/
structure RawIndRow where
  companyName : String
  exchangeTicker : String
  industryGroup : String
  primarySector : String
  country : String
  deriving DecidableEq

/-- A row of `get_industry_df`'s result. -/
structure IndRow where
  company : String
  industry : String
  sector : String
  country : String
  exchange : Option String
  ticker : Option String
  deriving DecidableEq

/-- `get_industry_df`: drop pink-sheet rows, filter by country (and
optionally industry), split `Exchange:Ticker` into its two parts (a part
missing after the split reads as `None`). -/
def get_industry_df (raw : List RawIndRow) (industry_list : Option (List String))
    (country_list : List String) (no_pink : Bool) : List IndRow :=
  let subdf := if no_pink then
      raw.filter (fun r => ¬ containsSeg "OTCPK".data r.exchangeTicker.data)
    else raw
  let filtered :=
    if country_list = ["All"] then
      match industry_list with
      | none => subdf
      | some il => subdf.filter (fun r => il.contains r.industryGroup)
    else
      match industry_list with
      | none => subdf.filter (fun r => country_list.contains r.country)
      | some il => subdf.filter (fun r =>
          il.contains r.industryGroup ∧ country_list.contains r.country)
  filtered.map (fun r =>
    let parts := splitOnChar ':' r.exchangeTicker.data
    { company := r.companyName
      industry := r.industryGroup
      sector := r.primarySector
      country := r.country
      exchange := some (String.mk (parts.headD []))
      ticker := ((parts.drop 1).head?).map String.mk })

/-- The structured record built by `get_industry_info` (the nested
sub-dictionaries flattened; all metric slots optional, as produced by
`_safe_get`). -/
structure IndustryInfo where
  company_name : String
  industry_name : String
  marketsize : Option Rat
  past_cagr_5y : Option Rat
  next_cagr_2y : Option Rat
  next_cagr_5y : Option Rat
  gross_margin : Option Rat
  ebit_margin : Option Rat
  net_margin : Option Rat
  roc : Option Rat
  roe : Option Rat
  receivable_days : Option Rat
  inventory_days : Option Rat
  payable_days : Option Rat
  number_of_firms : Option Rat
  beta : Option Rat
  de : Option Rat
  cost_of_equity : Option Rat
  current_pe : Option Rat
  forward_pe : Option Rat
  ev_ebitda : Option Rat
  pbv : Option Rat
  ev_sales : Option Rat
  deriving DecidableEq

/-- `get_industry_info`: resolve the ticker against the industry table
(raising the `ValueError` that names the ticker when no row matches), then
assemble the per-topic metrics through `_safe_get` (`df.loc` with every
failure reading as `None`; the integer casts change only the Python type,
not the value). -/
def get_industry_info (raw : List RawIndRow) (env : AdamodarEnv)
    (company_ticker : String) : Except String IndustryInfo :=
  let ind_df := get_industry_df raw none ["United States"] true
  let matched := ind_df.filter (fun r => r.ticker = some company_ticker)
  match matched with
  | [] => .error ("Ticker '" ++ company_ticker ++ "' not found in industry dataframe")
  | m0 :: _ =>
    let indname := m0.industry
    let demand_df := (get_ind_demand env (some [indname])).1
    let fundamentals_df := (get_ind_fundamentals env (some [indname])).1
    let profitability_df := (get_ind_profitability env (some [indname])).1
    let efficiency_df := (get_ind_efficiency env (some [indname])).1
    let risk_df := (get_ind_risk env (some [indname])).1
    let multiples_df := (get_ind_multiples env (some [indname])).1
    .ok { company_name := m0.company
          industry_name := indname
          marketsize := Table.cell fundamentals_df indname "Revenue"
          past_cagr_5y := Table.cell demand_df indname "Revenue CAGR (past 5y)"
          next_cagr_2y := Table.cell demand_df indname "Revenue CAGR (next 2y)"
          next_cagr_5y := Table.cell demand_df indname "Revenue CAGR (next 5y)"
          gross_margin := Table.cell profitability_df indname "Gross Margin"
          ebit_margin := Table.cell profitability_df indname "EBIT Margin"
          net_margin := Table.cell profitability_df indname "Net Margin"
          roc := Table.cell profitability_df indname "ROC"
          roe := Table.cell profitability_df indname "ROE"
          receivable_days := Table.cell efficiency_df indname "DSO"
          inventory_days := Table.cell efficiency_df indname "DSI"
          payable_days := Table.cell efficiency_df indname "DPO"
          number_of_firms := Table.cell risk_df indname "Number of firms"
          beta := Table.cell risk_df indname "Beta"
          de := Table.cell risk_df indname "D/E"
          cost_of_equity := Table.cell risk_df indname "Cost of Equity"
          current_pe := Table.cell multiples_df indname "Current PE"
          forward_pe := Table.cell multiples_df indname "Forward PE"
          ev_ebitda := Table.cell multiples_df indname "EV/EBITDA"
          pbv := Table.cell multiples_df indname "PBV"
          ev_sales := Table.cell multiples_df indname "EV/Sales" }

/-! ## Remote fetch + file cache (`av_client.py` lines 17–42, 143–282)

The network and the file system are explicit: `Net` maps a request URL to
its parsed JSON body, and the cache directory is an association list from
file name to content, where a file that exists but does not parse is
`corrupt`.  The fetch functions return their result together with the
updated directory and the list of request URLs they issued. -/

/-- A parsed JSON payload as it moves through this layer: a statement
body, a raw OVERVIEW body (flat string map), or a converted overview as
saved back to the cache (numeric fields converted, `RevCAGR5y` attached). -/
inductive JsonV where
  | jStmt (s : Statement)
  | jOvRaw (fields : List (String × String))
  | jOvConv (fields : List (String × PyVal)) (revCagr5y : Option Real)

/-- View a payload as the statement dict consumed by
`build_ttm_from_statement` / `compute_5yr_cagr_from_annuals` (`None` and
falsy payloads read as `none`; only statement-shaped payloads flow here). -/
def JsonV.asStmt : JsonV → Option Statement
  | .jStmt s => some s
  | _ => none

/-- Content of a cache file: a JSON body, or text that `json.loads` rejects. -/
inductive FileContent where
  | good (j : JsonV)
  | corrupt

/-- The cache directory: file name ↦ content. -/
abbrev Files := List (String × FileContent)

/-- Set a key in an association list (overwrite the first occurrence,
else append) — the effect of writing a file. -/
def assocSet (k : String) (v : FileContent) : Files → Files
  | [] => [(k, v)]
  | (k0, v0) :: rest => if k0 = k then (k, v) :: rest else (k0, v0) :: assocSet k v rest

/-- `_get_cache_file`: `{symbol}_{data_type}.json`. -/
def cacheFileName (symbol data_type : String) : String :=
  symbol ++ "_" ++ data_type ++ ".json"

/-- `_load_from_cache`: parsed contents of an existing readable cache
file; `None` when the file is absent or fails to parse. -/
def load_from_cache (files : Files) (symbol data_type : String) : Option JsonV :=
  match List.lookup (cacheFileName symbol data_type) files with
  | some (.good j) => some j
  | some .corrupt => none
  | none => none

/-- `_save_to_cache`: write the payload to the cache file. -/
def save_to_cache (files : Files) (symbol data_type : String) (j : JsonV) : Files :=
  assocSet (cacheFileName symbol data_type) (.good j) files

/-- The provider query URL. -/
def buildUrl (func symbol apikey : String) : String :=
  "https://www.alphavantage.co/query?function=" ++ func ++ "&symbol=" ++ symbol
    ++ "&apikey=" ++ apikey

/-- The network: request URL ↦ parsed JSON response body. -/
abbrev Net := String → JsonV

/-- The three statement endpoints fetched by `fetch_company_ttm`
(API function name, cache data type). -/
def ttmEndpoints : List (String × String) :=
  [("INCOME_STATEMENT", "income_statement"),
   ("BALANCE_SHEET", "balance_sheet"),
   ("CASH_FLOW", "cash_flow")]

/-- The record returned by `fetch_company_ttm`. -/
structure TtmResult where
  income_ttm : Option TTM
  balance_ttm : Option TTM
  cashflow_ttm : Option TTM
  deriving DecidableEq

/-- One iteration of `fetch_company_ttm`'s endpoint loop, carrying the
gathered raw payloads, the cache directory and the issued request URLs:
use the readable cache entry when caching is on, otherwise issue the GET
and persist the body. -/
def ttmStep (net : Net) (symbol av_key : String) (use_cache : Bool)
    (st : List (String × JsonV) × Files × List String) (fd : String × String) :
    List (String × JsonV) × Files × List String :=
  match (if use_cache then load_from_cache st.2.1 symbol fd.2 else none) with
  | some cached => (st.1 ++ [(fd.2, cached)], st.2.1, st.2.2)
  | none =>
    let url := buildUrl fd.1 symbol av_key
    let data := net url
    (st.1 ++ [(fd.2, data)], save_to_cache st.2.1 symbol fd.2 data, st.2.2 ++ [url])

/-- `fetch_company_ttm`: run the endpoint loop over the three statement
endpoints, then build the three TTM statements from the gathered payloads. -/
def fetch_company_ttm (net : Net) (files : Files) (ticker av_key : String)
    (use_cache : Bool) : TtmResult × Files × List String :=
  let symbol := pyUpper ticker
  let fin := ttmEndpoints.foldl (ttmStep net symbol av_key use_cache) ([], files, [])
  ({ income_ttm :=
       build_ttm_from_statement ((List.lookup "income_statement" fin.1).bind JsonV.asStmt)
     balance_ttm :=
       build_ttm_from_statement ((List.lookup "balance_sheet" fin.1).bind JsonV.asStmt)
     cashflow_ttm :=
       build_ttm_from_statement ((List.lookup "cash_flow" fin.1).bind JsonV.asStmt) },
   fin.2.1, fin.2.2)

/-- The overview fields kept as strings by `fetch_company_overview`. -/
def keepAsStr : List String :=
  ["Address", "Description", "AssetType", "Country", "Currency", "Exchange",
   "FiscalYearEnd", "Industry", "Name", "OfficialSite", "Sector", "Symbol", "CIK"]

/-- `endswith` on character lists. -/
def endsWithCL (l p : List Char) : Bool := List.isSuffixOf p l

/-- The date-like key test of the overview conversion loop:
`k.lower().endswith("date") or "date" in k.lower() or "quarter" in k.lower()`. -/
def dateLike (k : String) : Bool :=
  let kl := pyLower k.data
  endsWithCL kl "date".data || containsSeg "date".data kl || containsSeg "quarter".data kl

/-- One step of the overview conversion loop: keep the configured textual
and date-like fields as strings, otherwise convert, leaving the original
string in place when conversion fails. -/
def normalizeOverviewField (k v : String) : PyVal :=
  if keepAsStr.contains k then .vStr v
  else if dateLike k then .vStr v
  else
    match convert_num (some v) with
    | some n => .vNum n
    | none => .vStr v

/-- `fetch_company_overview`: serve the readable cache entry when caching
is on; otherwise GET the OVERVIEW body, convert its numeric fields, attach
the 5-year revenue CAGR (reusing a cached income statement when available,
else fetching and persisting one), persist and return the result. -/
noncomputable def fetch_company_overview (net : Net) (files : Files)
    (ticker av_key : String) (use_cache : Bool) : JsonV × Files × List String :=
  let symbol := pyUpper ticker
  match (if use_cache then load_from_cache files symbol "overview" else none) with
  | some cached => (cached, files, [])
  | none =>
    let url := buildUrl "OVERVIEW" symbol av_key
    let raw := match net url with
      | .jOvRaw fields => fields
      | _ => []
    let converted := raw.map (fun kv => (kv.1, normalizeOverviewField kv.1 kv.2))
    match (if use_cache then load_from_cache files symbol "income_statement" else none) with
    | some j =>
      let data := JsonV.jOvConv converted
        (compute_5yr_cagr_from_annuals (JsonV.asStmt j) "totalRevenue")
      (data, save_to_cache files symbol "overview" data, [url])
    | none =>
      let url_inc := buildUrl "INCOME_STATEMENT" symbol av_key
      let inc := net url_inc
      let fs1 := save_to_cache files symbol "income_statement" inc
      let data := JsonV.jOvConv converted
        (compute_5yr_cagr_from_annuals (JsonV.asStmt inc) "totalRevenue")
      (data, save_to_cache fs1 symbol "overview" data, [url, url_inc])

/-! ## Sample data for concrete instantiations -/

/-- A sample `DollarUS` table containing an ordinary industry row and the
aggregate `Total Market (without financials)` row. -/
def sampleDollarUS : Table :=
  [("Advertising", [("Revenues ($ millions)", some 50000)]),
   (total_market_row, [("Revenues ($ millions)", some 1000000)])]

/-- A sample spreadsheet environment exposing `sampleDollarUS`. -/
def sampleAdamodarEnv : AdamodarEnv :=
  fun f => if f = "DollarUS" then sampleDollarUS else []

/-- A sample raw industry spreadsheet with a single US company row. -/
def sampleRawInd : List RawIndRow :=
  [{ companyName := "Crocs Inc", exchangeTicker := "NASDAQGS:CROX",
     industryGroup := "Shoe", primarySector := "Consumer Discretionary",
     country := "United States" }]

/-- A network that answers every request with an empty statement body. -/
def constNet : Net := fun _ => .jStmt { annualReports := [], quarterlyReports := [] }

/-- A cache directory holding entries for every endpoint of `CROX`. -/
def sampleCachedFiles : Files :=
  [("CROX_overview.json", .good (.jOvRaw [("Name", "Crocs Inc")])),
   ("CROX_income_statement.json", .good (.jStmt { annualReports := [], quarterlyReports := [] })),
   ("CROX_balance_sheet.json", .good (.jStmt { annualReports := [], quarterlyReports := [] })),
   ("CROX_cash_flow.json", .good (.jStmt { annualReports := [], quarterlyReports := [] }))]

/-- A cache directory whose `CROX` income-statement file is unreadable. -/
def sampleCorruptFiles : Files :=
  [("CROX_income_statement.json", .corrupt)]

/-- An income statement with six annual reports whose revenues at indices
0 and 5 are `121` and `100`. -/
def sampleCagrStatement : Statement :=
  { annualReports :=
      [[("totalRevenue", "121")], [], [], [], [], [("totalRevenue", "100")]],
    quarterlyReports := [] }

/-- A TTM income dictionary with zero revenue but the other line items present. -/
def zeroRevenueIncome : FinDict :=
  [("totalRevenue", some (.i 0)), ("grossProfit", some (.i 5)),
   ("operatingIncome", some (.i 3)), ("netIncome", some (.i 2)),
   ("costOfRevenue", some (.i 100))]

/-- A TTM balance dictionary with the working-capital and debt items present. -/
def sampleBalance : FinDict :=
  [("currentNetReceivables", some (.i 10)), ("inventory", some (.i 50)),
   ("currentAccountsPayable", some (.i 20)), ("shortTermDebt", some (.i 5)),
   ("longTermDebt", some (.i 15)), ("totalShareholderEquity", some (.i 40))]

/-- An overview dictionary with the pass-through fields present. -/
def sampleOverviewDict : FinDict :=
  [("ReturnOnAssetsTTM", some (.f (1/10))), ("ReturnOnEquityTTM", some (.f (2/10))),
   ("Beta", some (.f (6/5))), ("RevCAGR5y", some (.f (1/25)))]

/-! ## Theorems -/

/-- Claim C6: the numeric string converter maps `"1,234"` to the integer
`1234`, `"(500)"` to `-500`, `"12.5"` to the float `12.5`, and the empty
string or `"None"` (case-insensitively) to `None`; a failing input yields
`None`, and the overview normalization then leaves such a field as its
original string. -/
theorem C6_convert_num_spec :
    convert_num (some "1,234") = some (.i 1234)
    ∧ convert_num (some "(500)") = some (.i (-500))
    ∧ convert_num (some "12.5") = some (.f (25/2))
    ∧ convert_num (some "") = none
    ∧ convert_num (some "None") = none
    ∧ convert_num (some "nONe") = none
    ∧ convert_num none = none
    ∧ convert_num (some "abc") = none
    ∧ (∀ k v : String, ¬ keepAsStr.contains k = true → ¬ dateLike k = true →
        convert_num (some v) = none → normalizeOverviewField k v = .vStr v) := by
  refine ⟨by decide, by decide, by with_unfolding_all decide, by decide, by decide,
    by decide, rfl, by decide, ?_⟩
  intro k v hk hd hc
  simp [normalizeOverviewField, hk, hd, hc]

/-- Witness for C6: `"PERatio"` is neither a keep-as-string nor a date-like
key, and `"abc"` fails conversion, so the overview keeps the original string. -/
theorem C6_convert_num_witness :
    normalizeOverviewField "PERatio" "abc" = .vStr "abc" :=
  C6_convert_num_spec.2.2.2.2.2.2.2.2 "PERatio" "abc"
    (by decide) (by decide) (by decide)

/-- Claim C8 (amended): each accessor called with a non-`None` industry
list appends the sentinel string to the caller's list — the original
elements stay as a prefix and every appended element is the sentinel — but
the list grows by exactly one element only for `get_ind_fundamentals`,
`get_ind_profitability`, `get_ind_risk`, `get_ind_multiples` and
`get_ind_demand`; `get_ind_efficiency` leaves it two elements longer,
because its internal `get_ind_fundamentals` call appends first. -/
theorem C8_list_mutation_amended (env : AdamodarEnv) (l : List String) :
    (get_ind_fundamentals env (some l)).2 = some (l ++ [total_market_sentinel])
    ∧ (get_ind_profitability env (some l)).2 = some (l ++ [total_market_sentinel])
    ∧ (get_ind_risk env (some l)).2 = some (l ++ [total_market_sentinel])
    ∧ (get_ind_multiples env (some l)).2 = some (l ++ [total_market_sentinel])
    ∧ (get_ind_demand env (some l)).2 = some (l ++ [total_market_sentinel])
    ∧ (get_ind_efficiency env (some l)).2
        = some (l ++ [total_market_sentinel, total_market_sentinel]) := by
  refine ⟨rfl, rfl, rfl, rfl, rfl, ?_⟩
  simp [get_ind_efficiency, get_ind_fundamentals, sentinel_filter]

/-- Counterexample for C8 as stated: after `get_ind_efficiency` the
caller's one-element list holds three elements — the sentinel was appended
twice — not the claimed two. -/
theorem C8_list_mutation_counterexample :
    (get_ind_efficiency (fun _ => []) (some ["Advertising"])).2
      = some ["Advertising", total_market_sentinel, total_market_sentinel] := by
  simp [get_ind_efficiency, get_ind_fundamentals, sentinel_filter]

/-- Claim C1 (the code violates it): the appended sentinel misses the
closing parenthesis of the actual aggregate-row label, so filtering
`["Advertising"]` over a source table that contains the aggregate row
returns only the `Advertising` row — the `Total Market (without
financials)` row is dropped even though it exists in the source. -/
theorem C1_total_market_row_dropped :
    sampleDollarUS.map Prod.fst = ["Advertising", total_market_row]
    ∧ ((get_ind_fundamentals sampleAdamodarEnv (some ["Advertising"])).1).map Prod.fst
        = ["Advertising"]
    ∧ total_market_sentinel ≠ total_market_row := by
  refine ⟨by decide, ?_, by decide⟩
  decide

/-- Key lookup in a map tabulated over a key list. -/
theorem lookup_map_tab {β : Type} (f : String → β) :
    ∀ (l : List String) (k : String), k ∈ l →
      List.lookup k (l.map fun x => (x, f x)) = some (f k) := by
  intro l
  induction l with
  | nil => intro k h; cases h
  | cons a t ih =>
    intro k h
    by_cases hk : k = a
    · subst hk; simp [List.lookup]
    · rcases List.mem_cons.mp h with h1 | h1
      · exact absurd h1 hk
      · have hb : (k == a) = false := beq_eq_false_iff_ne.mpr hk
        simpa [List.lookup, hb] using ih k h1

/-- The running (sum, any-float) accumulator of the TTM summing loop,
characterised by the present converted values. -/
theorem ttm_fold_characterization :
    ∀ (vals : List (Option PyNum)) (s : Rat) (b : Bool),
      vals.foldl
        (fun (p : Rat × Bool) v =>
          match v with
          | none => p
          | some (.i n) => (p.1 + (n : Rat), p.2)
          | some (.f q) => (p.1 + q, true))
        (s, b)
      = (s + ((vals.filterMap id).map PyNum.toRat).sum,
         b || (vals.filterMap id).any (fun n => PyNum.isFloat n)) := by
  intro vals
  induction vals with
  | nil => intro s b; simp
  | cons v t ih =>
    intro s b
    cases v with
    | none => simpa using ih s b
    | some n =>
      cases n with
      | i m => simp [ih, PyNum.toRat, PyNum.isFloat, add_assoc]
      | f q => simp [ih, PyNum.toRat, PyNum.isFloat, add_assoc]

/-- A list of optional values is all-`none` exactly when no value is present. -/
theorem all_none_iff_filterMap_nil (vals : List (Option PyNum)) :
    (vals.all fun v => v = none) = true ↔ vals.filterMap id = [] := by
  induction vals with
  | nil => simp
  | cons v t ih => cases v <;> simp [ih]

/-- Claim C2: `build_ttm_from_statement` is `None` exactly for a missing
statement or an empty quarterly-report list; otherwise every
non-housekeeping field key present across the up-to-four most recent
quarterly reports is mapped to the sum of its numerically converted
values — `None` only if all available values were `None`, a float if any
component was a float and an integer otherwise; four quarters
`[10, 20, 30, 40]` yield `100` and a single quarter `[10]` yields `10`. -/
theorem C2_build_ttm_spec :
    build_ttm_from_statement none = none
    ∧ (∀ st : Statement, st.quarterlyReports = [] → build_ttm_from_statement (some st) = none)
    ∧ (∀ (st : Statement) (t : TTM), build_ttm_from_statement (some st) = some t →
        ∀ k, k ∈ unionKeys (st.quarterlyReports.take 4) →
          ¬ k = "fiscalDateEnding" → ¬ k = "reportedCurrency" →
          List.lookup k t.fields =
            some (
              if ((st.quarterlyReports.take 4).map
                    (fun q => convert_num (q.get k))).filterMap id = [] then
                PyVal.vNone
              else if (((st.quarterlyReports.take 4).map
                    (fun q => convert_num (q.get k))).filterMap id).any
                      (fun n => PyNum.isFloat n) then
                PyVal.vNum (.f (((((st.quarterlyReports.take 4).map
                    (fun q => convert_num (q.get k))).filterMap id).map PyNum.toRat).sum))
              else
                PyVal.vNum (.i (((((st.quarterlyReports.take 4).map
                    (fun q => convert_num (q.get k))).filterMap id).map PyNum.toRat).sum.num))))
    ∧ (build_ttm_from_statement (some { annualReports := [], quarterlyReports :=
          [[("totalRevenue", "10")], [("totalRevenue", "20")],
           [("totalRevenue", "30")], [("totalRevenue", "40")]] })).map
        (fun t => List.lookup "totalRevenue" t.fields) = some (some (.vNum (.i 100)))
    ∧ (build_ttm_from_statement (some { annualReports := [], quarterlyReports :=
          [[("totalRevenue", "10")]] })).map
        (fun t => List.lookup "totalRevenue" t.fields) = some (some (.vNum (.i 10))) := by
  refine ⟨rfl, ?_, ?_, by with_unfolding_all decide, by with_unfolding_all decide⟩
  · intro st h
    simp [build_ttm_from_statement, h]
  · intro st t ht k hk h1 h2
    rw [build_ttm_from_statement] at ht
    by_cases hq : st.quarterlyReports = []
    · simp [hq] at ht
    · rw [if_neg hq] at ht
      injection ht with ht
      subst ht
      rw [lookup_map_tab (ttmValue (st.quarterlyReports.take 4)) _ _ hk]
      rw [ttmValue, if_neg (by simp [h1, h2])]
      set vals := (st.quarterlyReports.take 4).map (fun q => convert_num (q.get k)) with hv
      by_cases hall : (vals.all fun v => v = none) = true
      · rw [if_pos hall, if_pos ((all_none_iff_filterMap_nil vals).mp hall)]
      · rw [if_neg hall, if_neg (fun hc => hall ((all_none_iff_filterMap_nil vals).mpr hc))]
        rw [ttm_fold_characterization vals 0 false]
        simp

/-- Witness for C2: the empty quarterly list yields `None`, and a built
single-quarter TTM record holds the integer sum `10` at its field key. -/
theorem C2_build_ttm_witness :
    build_ttm_from_statement (some { annualReports := [], quarterlyReports := [] }) = none
    ∧ List.lookup "totalRevenue"
        (TTM.fields { fields := [("totalRevenue", PyVal.vNum (.i 10))],
                      ttm_from_quarters := [none] })
      = some (PyVal.vNum (.i 10)) := by
  constructor
  · exact C2_build_ttm_spec.2.1 _ rfl
  · have h := C2_build_ttm_spec.2.2.1
      { annualReports := [], quarterlyReports := [[("totalRevenue", "10")]] }
      { fields := [("totalRevenue", PyVal.vNum (.i 10))], ttm_from_quarters := [none] }
      (by with_unfolding_all decide) "totalRevenue" (by decide) (by decide) (by decide)
    rw [h]
    with_unfolding_all decide

/-- `_safe_div` is `None` when either operand is `None` or the denominator
is zero. -/
theorem safe_div_eq_none (a b : Option PyNum)
    (h : a = none ∨ b = none ∨ ∃ r, b = some r ∧ r.toRat = 0) :
    safe_div a b = none := by
  rcases h with h | h | ⟨r, hr, hr0⟩
  · cases b <;> simp [safe_div, h]
  · cases a <;> simp [safe_div, h]
  · subst hr; cases a <;> simp [safe_div, hr0]

/-- Claim C4: each derived ratio of `compute_financial_metrics` is `None`
whenever a required input is `None` or its denominator (revenue, COGS or
total equity) is zero; and a record with zero revenue still carries its
other metrics (days, leverage, pass-through items), with the margins and
receivable days `None` rather than a division error. -/
theorem C4_metrics_null_safety :
    (∀ income bal overview : FinDict,
      ((getv income "grossProfit" = none ∨ getv income "totalRevenue" = none ∨
          (∃ r, getv income "totalRevenue" = some r ∧ r.toRat = 0)) →
        (compute_financial_metrics_core income bal overview).gross_margin = none)
      ∧ ((getv income "operatingIncome" = none ∨ getv income "totalRevenue" = none ∨
          (∃ r, getv income "totalRevenue" = some r ∧ r.toRat = 0)) →
        (compute_financial_metrics_core income bal overview).ebit_margin = none)
      ∧ ((getv income "netIncome" = none ∨ getv income "totalRevenue" = none ∨
          (∃ r, getv income "totalRevenue" = some r ∧ r.toRat = 0)) →
        (compute_financial_metrics_core income bal overview).net_margin = none)
      ∧ ((getv bal "currentNetReceivables" = none ∨ getv income "totalRevenue" = none ∨
          (∃ r, getv income "totalRevenue" = some r ∧ r.toRat = 0)) →
        (compute_financial_metrics_core income bal overview).receivable_days = none)
      ∧ ((getv bal "inventory" = none ∨ cogs_of income = none ∨
          (∃ c, cogs_of income = some c ∧ c.toRat = 0)) →
        (compute_financial_metrics_core income bal overview).inventory_days = none)
      ∧ ((getv bal "currentAccountsPayable" = none ∨ cogs_of income = none ∨
          (∃ c, cogs_of income = some c ∧ c.toRat = 0)) →
        (compute_financial_metrics_core income bal overview).payable_days = none)
      ∧ ((total_debt_of bal = none ∨ getv bal "totalShareholderEquity" = none ∨
          (∃ e, getv bal "totalShareholderEquity" = some e ∧ e.toRat = 0)) →
        (compute_financial_metrics_core income bal overview).debt_to_equity = none)
      ∧ (getv overview "Beta" = none →
        (compute_financial_metrics_core income bal overview).beta = none))
    ∧ compute_financial_metrics_core zeroRevenueIncome sampleBalance sampleOverviewDict =
        { revenue := some (.i 0), gross_margin := none, ebit_margin := none,
          net_margin := none, receivable_days := none, inventory_days := some 182,
          payable_days := some 73, debt_to_equity := some (1/2),
          return_on_capital := some (.f (1/10)), return_on_equity := some (.f (2/10)),
          beta := some (6/5), rev_cagr_5y := some (.f (1/25)) } := by
  constructor
  · intro income bal overview
    refine ⟨?_, ?_, ?_, ?_, ?_, ?_, ?_, ?_⟩
    · intro h
      simp [compute_financial_metrics_core, safe_div_eq_none _ _ h]
    · intro h
      simp [compute_financial_metrics_core, safe_div_eq_none _ _ h]
    · intro h
      simp [compute_financial_metrics_core, safe_div_eq_none _ _ h]
    · rintro (h | h | ⟨r, hr, hr0⟩)
      · cases hrv : getv income "totalRevenue" <;>
          simp [compute_financial_metrics_core, h, hrv]
      · cases hnr : getv bal "currentNetReceivables" <;>
          simp [compute_financial_metrics_core, h, hnr]
      · cases hnr : getv bal "currentNetReceivables" <;>
          simp [compute_financial_metrics_core, hr, hr0, hnr]
    · rintro (h | h | ⟨c, hc, hc0⟩)
      · cases hcg : cogs_of income <;>
          simp [compute_financial_metrics_core, h, hcg]
      · cases hiv : getv bal "inventory" <;>
          simp [compute_financial_metrics_core, h, hiv]
      · cases hiv : getv bal "inventory" <;>
          simp [compute_financial_metrics_core, hc, hc0, hiv]
    · rintro (h | h | ⟨c, hc, hc0⟩)
      · cases hcg : cogs_of income <;>
          simp [compute_financial_metrics_core, h, hcg]
      · cases hap : getv bal "currentAccountsPayable" <;>
          simp [compute_financial_metrics_core, h, hap]
      · cases hap : getv bal "currentAccountsPayable" <;>
          simp [compute_financial_metrics_core, hc, hc0, hap]
    · rintro (h | h | ⟨e, he, he0⟩)
      · cases heq : getv bal "totalShareholderEquity" <;>
          simp [compute_financial_metrics_core, h, heq]
      · cases htd : total_debt_of bal <;>
          simp [compute_financial_metrics_core, h, htd]
      · cases htd : total_debt_of bal <;>
          simp [compute_financial_metrics_core, he, he0, htd]
    · intro h
      simp [compute_financial_metrics_core, h]
  · with_unfolding_all decide

/-- Witness for C4: with empty input dictionaries every required input is
`None`, and every derived ratio is `None`. -/
theorem C4_metrics_null_safety_witness :
    (compute_financial_metrics_core [] [] []).gross_margin = none
    ∧ (compute_financial_metrics_core [] [] []).ebit_margin = none
    ∧ (compute_financial_metrics_core [] [] []).net_margin = none
    ∧ (compute_financial_metrics_core [] [] []).receivable_days = none
    ∧ (compute_financial_metrics_core [] [] []).inventory_days = none
    ∧ (compute_financial_metrics_core [] [] []).payable_days = none
    ∧ (compute_financial_metrics_core [] [] []).debt_to_equity = none
    ∧ (compute_financial_metrics_core [] [] []).beta = none :=
  ⟨(C4_metrics_null_safety.1 [] [] []).1 (Or.inl rfl),
   (C4_metrics_null_safety.1 [] [] []).2.1 (Or.inl rfl),
   (C4_metrics_null_safety.1 [] [] []).2.2.1 (Or.inl rfl),
   (C4_metrics_null_safety.1 [] [] []).2.2.2.1 (Or.inl rfl),
   (C4_metrics_null_safety.1 [] [] []).2.2.2.2.1 (Or.inl rfl),
   (C4_metrics_null_safety.1 [] [] []).2.2.2.2.2.1 (Or.inl rfl),
   (C4_metrics_null_safety.1 [] [] []).2.2.2.2.2.2.1 (Or.inl rfl),
   (C4_metrics_null_safety.1 [] [] []).2.2.2.2.2.2.2 rfl⟩

/-- Claim C7: `get_industry_info` raises the distinct not-found
`ValueError`, whose message names the invalid ticker, exactly when no row
of the industry table matches the ticker; a matching ticker resolves to
the first matched row's industry and company names without raising. -/
theorem C7_ticker_resolution (raw : List RawIndRow) (env : AdamodarEnv) (t : String) :
    ((get_industry_df raw none ["United States"] true).filter
        (fun r => r.ticker = some t) = [] →
      get_industry_info raw env t =
        .error ("Ticker '" ++ t ++ "' not found in industry dataframe"))
    ∧ (∀ (r0 : IndRow) (rs : List IndRow),
        (get_industry_df raw none ["United States"] true).filter
          (fun r => r.ticker = some t) = r0 :: rs →
        ∃ info, get_industry_info raw env t = .ok info ∧
          info.company_name = r0.company ∧ info.industry_name = r0.industry) := by
  constructor
  · intro h
    simp only [get_industry_info]
    rw [h]
  · intro r0 rs h
    simp only [get_industry_info]
    rw [h]
    exact ⟨_, rfl, rfl, rfl⟩

/-- Witness for C7: a ticker absent from the sample table raises the
named not-found error; the present ticker resolves to its company and
industry. -/
theorem C7_ticker_resolution_witness :
    get_industry_info sampleRawInd (fun _ => []) "ZZZZ"
      = .error "Ticker 'ZZZZ' not found in industry dataframe"
    ∧ ∃ info, get_industry_info sampleRawInd (fun _ => []) "CROX" = .ok info
        ∧ info.company_name = "Crocs Inc" ∧ info.industry_name = "Shoe" := by
  constructor
  · exact (C7_ticker_resolution sampleRawInd (fun _ => []) "ZZZZ").1 (by decide)
  · exact (C7_ticker_resolution sampleRawInd (fun _ => []) "CROX").2
      { company := "Crocs Inc", industry := "Shoe", sector := "Consumer Discretionary",
        country := "United States", exchange := some "NASDAQGS", ticker := some "CROX" } []
      (by decide)

/-- Writing a key makes it readable. -/
theorem assocSet_lookup_self (k : String) (v : FileContent) (l : Files) :
    List.lookup k (assocSet k v l) = some v := by
  induction l with
  | nil => simp [assocSet, List.lookup]
  | cons p t ih =>
    by_cases h : p.1 = k
    · simp [assocSet, h, List.lookup]
    · have hb : (k == p.1) = false := beq_eq_false_iff_ne.mpr (fun hh => h hh.symm)
      simp [assocSet, h, List.lookup, hb, ih]

/-- Writing one key leaves the others unchanged. -/
theorem assocSet_lookup_ne (k k2 : String) (h : k ≠ k2) (v : FileContent) (l : Files) :
    List.lookup k (assocSet k2 v l) = List.lookup k l := by
  have hb : (k == k2) = false := beq_eq_false_iff_ne.mpr h
  induction l with
  | nil => simp [assocSet, List.lookup, hb]
  | cons p t ih =>
    by_cases h2 : p.1 = k2
    · subst h2
      simp [assocSet, List.lookup, hb]
    · by_cases hk : k = p.1
      · simp [assocSet, h2, List.lookup, hk]
      · have hbk : (k == p.1) = false := beq_eq_false_iff_ne.mpr hk
        simp [assocSet, h2, List.lookup, hbk, ih]

/-- A freshly saved cache entry is served back. -/
theorem load_save_self (fs : Files) (s d : String) (j : JsonV) :
    load_from_cache (save_to_cache fs s d j) s d = some j := by
  simp [load_from_cache, save_to_cache, assocSet_lookup_self]

/-- Saving under one data type does not touch another type's entry. -/
theorem load_save_ne (fs : Files) (s d d2 : String)
    (h : cacheFileName s d ≠ cacheFileName s d2) (j : JsonV) :
    load_from_cache (save_to_cache fs s d2 j) s d = load_from_cache fs s d := by
  simp [load_from_cache, save_to_cache, assocSet_lookup_ne _ _ h]

/-- Cache file names of distinct data types differ (for any symbol). -/
theorem cacheFileName_inj (s : String) {d1 d2 : String}
    (h : cacheFileName s d1 = cacheFileName s d2) : d1 = d2 := by
  have hd := congrArg String.data h
  simp only [cacheFileName, String.data_append] at hd
  have h2 := List.append_cancel_right hd
  have h3 := List.append_cancel_left h2
  cases d1; cases d2
  exact congrArg String.mk h3

/-- A cache hit leaves the directory and request log unchanged. -/
theorem ttmStep_hit (net : Net) (symbol av_key : String)
    (st : List (String × JsonV) × Files × List String) (fd : String × String)
    (j : JsonV) (h : load_from_cache st.2.1 symbol fd.2 = some j) :
    ttmStep net symbol av_key true st fd = (st.1 ++ [(fd.2, j)], st.2.1, st.2.2) := by
  simp [ttmStep, h]

/-- A cache miss issues the GET and persists the body. -/
theorem ttmStep_miss (net : Net) (symbol av_key : String)
    (st : List (String × JsonV) × Files × List String) (fd : String × String)
    (h : load_from_cache st.2.1 symbol fd.2 = none) :
    ttmStep net symbol av_key true st fd =
      (st.1 ++ [(fd.2, net (buildUrl fd.1 symbol av_key))],
       save_to_cache st.2.1 symbol fd.2 (net (buildUrl fd.1 symbol av_key)),
       st.2.2 ++ [buildUrl fd.1 symbol av_key]) := by
  simp [ttmStep, h]

/-- Claim C10: both fetch functions upper-case the ticker before any use,
so tickers with the same upper-casing produce the same cache file names,
the same request URLs, and identical fetch results on any cache/network
state. -/
theorem C10_ticker_case_insensitive :
    ∀ t1 t2 : String, pyUpper t1 = pyUpper t2 →
      ∀ (net : Net) (files : Files) (av_key d func : String) (u : Bool),
        cacheFileName (pyUpper t1) d = cacheFileName (pyUpper t2) d
        ∧ buildUrl func (pyUpper t1) av_key = buildUrl func (pyUpper t2) av_key
        ∧ fetch_company_ttm net files t1 av_key u = fetch_company_ttm net files t2 av_key u
        ∧ fetch_company_overview net files t1 av_key u
            = fetch_company_overview net files t2 av_key u := by
  intro t1 t2 h net files av_key d func u
  refine ⟨by rw [h], by rw [h], ?_, ?_⟩
  · simp only [fetch_company_ttm, h]
  · simp only [fetch_company_overview, h]

/-- Witness for C10: `"crox"` and `"CrOx"` behave identically. -/
theorem C10_ticker_case_insensitive_witness :
    fetch_company_ttm constNet sampleCachedFiles "crox" "k" true
      = fetch_company_ttm constNet sampleCachedFiles "CrOx" "k" true
    ∧ fetch_company_overview constNet sampleCachedFiles "crox" "k" true
      = fetch_company_overview constNet sampleCachedFiles "CrOx" "k" true
    ∧ cacheFileName (pyUpper "crox") "overview" = cacheFileName (pyUpper "CrOx") "overview"
    ∧ buildUrl "OVERVIEW" (pyUpper "crox") "k" = buildUrl "OVERVIEW" (pyUpper "CrOx") "k" := by
  obtain ⟨h1, h2, h3, h4⟩ := C10_ticker_case_insensitive "crox" "CrOx" (by decide)
    constNet sampleCachedFiles "k" "overview" "OVERVIEW" true
  exact ⟨h3, h4, h1, h2⟩

/-- The endpoint loop only appends to the payload list and the request
log. -/
theorem ttm_loop_shape (net : Net) (sym av_key : String) :
    ∀ (fds : List (String × String)) (st : List (String × JsonV) × Files × List String),
      ∃ tailA fsN tailR,
        fds.foldl (ttmStep net sym av_key true) st = (st.1 ++ tailA, fsN, st.2.2 ++ tailR) := by
  intro fds
  induction fds with
  | nil => intro st; exact ⟨[], st.2.1, [], by simp⟩
  | cons fd rest ih =>
    intro st
    rcases h : load_from_cache st.2.1 sym fd.2 with _ | j
    · obtain ⟨tA, fsN, tR, hrec⟩ := ih
        (st.1 ++ [(fd.2, net (buildUrl fd.1 sym av_key))],
         save_to_cache st.2.1 sym fd.2 (net (buildUrl fd.1 sym av_key)),
         st.2.2 ++ [buildUrl fd.1 sym av_key])
      refine ⟨(fd.2, net (buildUrl fd.1 sym av_key)) :: tA, fsN,
        buildUrl fd.1 sym av_key :: tR, ?_⟩
      rw [List.foldl_cons, ttmStep_miss net sym av_key st fd h, hrec]
      simp
    · obtain ⟨tA, fsN, tR, hrec⟩ := ih (st.1 ++ [(fd.2, j)], st.2.1, st.2.2)
      refine ⟨(fd.2, j) :: tA, fsN, tR, ?_⟩
      rw [List.foldl_cons, ttmStep_hit net sym av_key st fd j h, hrec]
      simp

/-- The endpoint loop only writes cache files named after its own data
types; any other file keeps its content. -/
theorem ttm_loop_preserves (net : Net) (sym av_key : String) (name : String) :
    ∀ (fds : List (String × String)),
      (∀ fd ∈ fds, name ≠ cacheFileName sym fd.2) →
      ∀ st, List.lookup name (fds.foldl (ttmStep net sym av_key true) st).2.1
        = List.lookup name st.2.1 := by
  intro fds
  induction fds with
  | nil => intro _ st; rfl
  | cons fd rest ih =>
    intro hn st
    have hrest := ih (fun fd2 h2 => hn fd2 (List.mem_cons_of_mem fd h2))
    rcases h : load_from_cache st.2.1 sym fd.2 with _ | j
    · rw [List.foldl_cons, ttmStep_miss net sym av_key st fd h, hrest]
      exact assocSet_lookup_ne _ _ (hn fd (List.mem_cons_self fd rest)) _ _
    · rw [List.foldl_cons, ttmStep_hit net sym av_key st fd j h, hrest]

/-- Replaying the endpoint loop on the directory it produced gathers the
same payloads, touches nothing, and issues no request. -/
theorem ttm_loop_replay (net : Net) (sym av_key : String) :
    ∀ (fds : List (String × String)),
      (List.Pairwise (fun a b => a.2 ≠ b.2) fds) →
      ∀ (st : List (String × JsonV) × Files × List String)
        (acc2 : List (String × JsonV)) (reqs2 : List String),
        ∃ tail,
          (fds.foldl (ttmStep net sym av_key true) st).1 = st.1 ++ tail
          ∧ fds.foldl (ttmStep net sym av_key true)
              (acc2, (fds.foldl (ttmStep net sym av_key true) st).2.1, reqs2)
            = (acc2 ++ tail, (fds.foldl (ttmStep net sym av_key true) st).2.1, reqs2) := by
  intro fds
  induction fds with
  | nil => intro _ st acc2 reqs2; exact ⟨[], by simp, by simp⟩
  | cons fd rest ih =>
    intro hp st acc2 reqs2
    have hpr := List.pairwise_cons.mp hp
    have step1 : ∃ v st1 reqs1, ttmStep net sym av_key true st fd
          = (st.1 ++ [(fd.2, v)], st1, reqs1)
        ∧ load_from_cache st1 sym fd.2 = some v := by
      rcases h : load_from_cache st.2.1 sym fd.2 with _ | j
      · exact ⟨net (buildUrl fd.1 sym av_key),
          save_to_cache st.2.1 sym fd.2 (net (buildUrl fd.1 sym av_key)),
          st.2.2 ++ [buildUrl fd.1 sym av_key],
          ttmStep_miss net sym av_key st fd h, load_save_self _ _ _ _⟩
      · exact ⟨j, st.2.1, st.2.2, ttmStep_hit net sym av_key st fd j h, h⟩
    obtain ⟨v, st1, reqs1, hstep, hload⟩ := step1
    obtain ⟨tail, hacc, hreplay⟩ := ih hpr.2 (ttmStep net sym av_key true st fd)
      (acc2 ++ [(fd.2, v)]) reqs2
    refine ⟨(fd.2, v) :: tail, ?_, ?_⟩
    · rw [List.foldl_cons, hacc, hstep]
      simp
    · have hlk := ttm_loop_preserves net sym av_key (cacheFileName sym fd.2) rest
        (fun fd2 h2 hh => hpr.1 fd2 h2 (cacheFileName_inj sym hh))
        (ttmStep net sym av_key true st fd)
      have hloadN : load_from_cache
          ((rest.foldl (ttmStep net sym av_key true) (ttmStep net sym av_key true st fd)).2.1)
          sym fd.2 = some v := by
        simp only [load_from_cache] at hload ⊢
        rw [hlk, hstep]
        exact hload
      simp only [List.foldl_cons]
      rw [ttmStep_hit net sym av_key
          (acc2,
           (rest.foldl (ttmStep net sym av_key true) (ttmStep net sym av_key true st fd)).2.1,
           reqs2) fd v hloadN]
      simpa using hreplay

/-- With caching on, a readable overview cache entry is returned verbatim,
with the directory untouched and no request issued. -/
theorem overview_cache_hit (net : Net) (files : Files) (t av_key : String) (j : JsonV)
    (h : load_from_cache files (pyUpper t) "overview" = some j) :
    fetch_company_overview net files t av_key true = (j, files, []) := by
  simp [fetch_company_overview, h]

/-- After any overview fetch with caching on, the overview cache file
holds exactly the returned payload. -/
theorem overview_postcondition (net : Net) (files : Files) (t av_key : String) :
    load_from_cache (fetch_company_overview net files t av_key true).2.1
      (pyUpper t) "overview"
      = some (fetch_company_overview net files t av_key true).1 := by
  rcases hov : load_from_cache files (pyUpper t) "overview" with _ | j
  · rcases hinc : load_from_cache files (pyUpper t) "income_statement" with _ | ji
    · simp only [fetch_company_overview, if_true, hov, hinc]
      exact load_save_self _ _ _ _
    · simp only [fetch_company_overview, if_true, hov, hinc]
      exact load_save_self _ _ _ _
  · rw [overview_cache_hit net files t av_key j hov]
    exact hov

/-- A second overview fetch returns the data of the first, touching
nothing and issuing no request. -/
theorem overview_roundtrip (net : Net) (files : Files) (t av_key : String) :
    fetch_company_overview net (fetch_company_overview net files t av_key true).2.1
        t av_key true
      = ((fetch_company_overview net files t av_key true).1,
         (fetch_company_overview net files t av_key true).2.1, []) :=
  overview_cache_hit net _ t av_key _ (overview_postcondition net files t av_key)

/-- With caching on and all three statement entries readable, the TTM
fetch builds its result from the parsed cache contents, touching nothing
and issuing no request. -/
theorem ttm_all_cached (net : Net) (files : Files) (t av_key : String) (j1 j2 j3 : JsonV)
    (h1 : load_from_cache files (pyUpper t) "income_statement" = some j1)
    (h2 : load_from_cache files (pyUpper t) "balance_sheet" = some j2)
    (h3 : load_from_cache files (pyUpper t) "cash_flow" = some j3) :
    fetch_company_ttm net files t av_key true =
      ({ income_ttm := build_ttm_from_statement j1.asStmt,
         balance_ttm := build_ttm_from_statement j2.asStmt,
         cashflow_ttm := build_ttm_from_statement j3.asStmt }, files, []) := by
  have e1 : ttmStep net (pyUpper t) av_key true ([], files, [])
      ("INCOME_STATEMENT", "income_statement") = ([("income_statement", j1)], files, []) := by
    rw [ttmStep_hit net (pyUpper t) av_key ([], files, []) _ j1 h1]
    rfl
  have e2 : ttmStep net (pyUpper t) av_key true ([("income_statement", j1)], files, [])
      ("BALANCE_SHEET", "balance_sheet")
      = ([("income_statement", j1), ("balance_sheet", j2)], files, []) := by
    rw [ttmStep_hit net (pyUpper t) av_key ([("income_statement", j1)], files, []) _ j2 h2]
    rfl
  have e3 : ttmStep net (pyUpper t) av_key true
      ([("income_statement", j1), ("balance_sheet", j2)], files, []) ("CASH_FLOW", "cash_flow")
      = ([("income_statement", j1), ("balance_sheet", j2), ("cash_flow", j3)], files, []) := by
    rw [ttmStep_hit net (pyUpper t) av_key
      ([("income_statement", j1), ("balance_sheet", j2)], files, []) _ j3 h3]
    rfl
  simp only [fetch_company_ttm, ttmEndpoints, List.foldl_cons, List.foldl_nil, e1, e2, e3]
  simp [List.lookup]

/-- A second TTM fetch returns the data of the first, touching nothing and
issuing no request. -/
theorem ttm_roundtrip (net : Net) (files : Files) (t av_key : String) :
    fetch_company_ttm net (fetch_company_ttm net files t av_key true).2.1 t av_key true
      = ((fetch_company_ttm net files t av_key true).1,
         (fetch_company_ttm net files t av_key true).2.1, []) := by
  obtain ⟨tail, hacc, hreplay⟩ := ttm_loop_replay net (pyUpper t) av_key ttmEndpoints
    (by decide) ([], files, []) [] []
  simp only [fetch_company_ttm]
  rw [hreplay, hacc]

/-- Claim C5: with caching enabled, a readable cache entry for the
requested (symbol, statement type) is served with no network request —
the overview fetch returns the parsed file verbatim and the TTM fetch
builds its result from the parsed files — and a repeated fetch returns
the first call's data with zero requests. -/
theorem C5_cache_trust :
    (∀ (net : Net) (files : Files) (t av_key : String) (j : JsonV),
      load_from_cache files (pyUpper t) "overview" = some j →
      fetch_company_overview net files t av_key true = (j, files, []))
    ∧ (∀ (net : Net) (files : Files) (t av_key : String) (j1 j2 j3 : JsonV),
      load_from_cache files (pyUpper t) "income_statement" = some j1 →
      load_from_cache files (pyUpper t) "balance_sheet" = some j2 →
      load_from_cache files (pyUpper t) "cash_flow" = some j3 →
      fetch_company_ttm net files t av_key true =
        ({ income_ttm := build_ttm_from_statement j1.asStmt,
           balance_ttm := build_ttm_from_statement j2.asStmt,
           cashflow_ttm := build_ttm_from_statement j3.asStmt }, files, []))
    ∧ (∀ (net : Net) (files : Files) (t av_key : String),
      fetch_company_overview net (fetch_company_overview net files t av_key true).2.1
          t av_key true
        = ((fetch_company_overview net files t av_key true).1,
           (fetch_company_overview net files t av_key true).2.1, []))
    ∧ (∀ (net : Net) (files : Files) (t av_key : String),
      fetch_company_ttm net (fetch_company_ttm net files t av_key true).2.1 t av_key true
        = ((fetch_company_ttm net files t av_key true).1,
           (fetch_company_ttm net files t av_key true).2.1, [])) :=
  ⟨overview_cache_hit, ttm_all_cached, overview_roundtrip, ttm_roundtrip⟩

/-- Witness for C5: with every `CROX` cache entry present, both fetches
return the parsed cache contents and issue no request. -/
theorem C5_cache_trust_witness :
    fetch_company_overview constNet sampleCachedFiles "crox" "k" true
      = (.jOvRaw [("Name", "Crocs Inc")], sampleCachedFiles, [])
    ∧ fetch_company_ttm constNet sampleCachedFiles "crox" "k" true
      = ({ income_ttm := none, balance_ttm := none, cashflow_ttm := none },
         sampleCachedFiles, []) := by
  constructor
  · exact C5_cache_trust.1 constNet sampleCachedFiles "crox" "k"
      (.jOvRaw [("Name", "Crocs Inc")]) rfl
  · exact C5_cache_trust.2.1 constNet sampleCachedFiles "crox" "k"
      (.jStmt { annualReports := [], quarterlyReports := [] })
      (.jStmt { annualReports := [], quarterlyReports := [] })
      (.jStmt { annualReports := [], quarterlyReports := [] }) rfl rfl rfl

/-- Claim C9: a cache file that exists but does not parse reads as `None`,
so the TTM fetch treats it as a miss: it issues the network request for
that statement type, overwrites the corrupted file with the fresh
response, and builds the TTM from that response. -/
theorem C9_corrupt_cache_is_miss :
    (∀ (files : Files) (symbol dtype : String),
      List.lookup (cacheFileName symbol dtype) files = some .corrupt →
      load_from_cache files symbol dtype = none)
    ∧ (∀ (net : Net) (files : Files) (t av_key : String),
      List.lookup (cacheFileName (pyUpper t) "income_statement") files = some .corrupt →
      buildUrl "INCOME_STATEMENT" (pyUpper t) av_key
          ∈ (fetch_company_ttm net files t av_key true).2.2
      ∧ List.lookup (cacheFileName (pyUpper t) "income_statement")
            (fetch_company_ttm net files t av_key true).2.1
          = some (.good (net (buildUrl "INCOME_STATEMENT" (pyUpper t) av_key)))
      ∧ (fetch_company_ttm net files t av_key true).1.income_ttm
          = build_ttm_from_statement
              ((net (buildUrl "INCOME_STATEMENT" (pyUpper t) av_key)).asStmt)) := by
  constructor
  · intro files symbol dtype h
    simp [load_from_cache, h]
  · intro net files t av_key h
    have h0 : load_from_cache files (pyUpper t) "income_statement" = none := by
      simp [load_from_cache, h]
    have e1 : ttmStep net (pyUpper t) av_key true ([], files, [])
        ("INCOME_STATEMENT", "income_statement")
        = ([("income_statement", net (buildUrl "INCOME_STATEMENT" (pyUpper t) av_key))],
           save_to_cache files (pyUpper t) "income_statement"
             (net (buildUrl "INCOME_STATEMENT" (pyUpper t) av_key)),
           [buildUrl "INCOME_STATEMENT" (pyUpper t) av_key]) := by
      rw [ttmStep_miss net (pyUpper t) av_key ([], files, []) _ h0]
      rfl
    obtain ⟨tA, fsN, tR, hshape⟩ := ttm_loop_shape net (pyUpper t) av_key
      [("BALANCE_SHEET", "balance_sheet"), ("CASH_FLOW", "cash_flow")]
      ([("income_statement", net (buildUrl "INCOME_STATEMENT" (pyUpper t) av_key))],
       save_to_cache files (pyUpper t) "income_statement"
         (net (buildUrl "INCOME_STATEMENT" (pyUpper t) av_key)),
       [buildUrl "INCOME_STATEMENT" (pyUpper t) av_key])
    have hpres := ttm_loop_preserves net (pyUpper t) av_key
      (cacheFileName (pyUpper t) "income_statement")
      [("BALANCE_SHEET", "balance_sheet"), ("CASH_FLOW", "cash_flow")]
      (by
        intro fd hfd hh
        have heq := cacheFileName_inj (pyUpper t) hh
        simp only [List.mem_cons, List.not_mem_nil, or_false] at hfd
        rcases hfd with hfd | hfd
        · subst hfd; exact absurd heq (by decide)
        · subst hfd; exact absurd heq (by decide))
      ([("income_statement", net (buildUrl "INCOME_STATEMENT" (pyUpper t) av_key))],
       save_to_cache files (pyUpper t) "income_statement"
         (net (buildUrl "INCOME_STATEMENT" (pyUpper t) av_key)),
       [buildUrl "INCOME_STATEMENT" (pyUpper t) av_key])
    have hpresClean : List.lookup (cacheFileName (pyUpper t) "income_statement") fsN
        = some (.good (net (buildUrl "INCOME_STATEMENT" (pyUpper t) av_key))) := by
      rw [hshape] at hpres
      simpa [save_to_cache, assocSet_lookup_self] using hpres
    simp only [fetch_company_ttm, ttmEndpoints]
    rw [List.foldl_cons, e1, hshape]
    refine ⟨by simp, by simpa using hpresClean, by simp [List.lookup]⟩

/-- Witness for C9: on a directory whose `CROX` income-statement file is
corrupted, the TTM fetch issues the income-statement request, overwrites
the file with the response, and builds from the response. -/
theorem C9_corrupt_cache_is_miss_witness :
    load_from_cache sampleCorruptFiles "CROX" "income_statement" = none
    ∧ buildUrl "INCOME_STATEMENT" (pyUpper "crox") "k"
        ∈ (fetch_company_ttm constNet sampleCorruptFiles "crox" "k" true).2.2
    ∧ List.lookup (cacheFileName (pyUpper "crox") "income_statement")
          (fetch_company_ttm constNet sampleCorruptFiles "crox" "k" true).2.1
        = some (.good (.jStmt { annualReports := [], quarterlyReports := [] })) := by
  obtain ⟨m1, m2, m3⟩ := C9_corrupt_cache_is_miss.2 constNet sampleCorruptFiles "crox" "k" rfl
  exact ⟨C9_corrupt_cache_is_miss.1 sampleCorruptFiles "CROX" "income_statement" rfl, m1, m2⟩

/-- Round-half-to-even sends any real in `[3.5, 4.5]` to `4` (the
endpoints are ties resolved to the even integer `4`). -/
theorem rheR_mid (y : Real) (h1 : 7/2 ≤ y) (h2 : y ≤ 9/2) : rheR y = 4 := by
  have l1 : (3 : Int) ≤ ⌊y⌋ := by
    apply Int.le_floor.mpr
    push_cast
    linarith
  have l2 : ⌊y⌋ ≤ (4 : Int) := by
    have hf : ⌊y⌋ ≤ ⌊(9/2 : Real)⌋ := Int.floor_le_floor h2
    have h45 : ⌊(9/2 : Real)⌋ = 4 := by
      rw [Int.floor_eq_iff]
      norm_num
    omega
  have hcase : ⌊y⌋ = 3 ∨ ⌊y⌋ = 4 := by omega
  simp only [rheR]
  rcases hcase with h3 | h4
  · rw [h3]
    rw [if_neg (by push_cast; linarith)]
    by_cases hgt : (1:Real)/2 < y - ((3:Int):Real)
    · rw [if_pos hgt]; decide
    · rw [if_neg hgt, if_neg (by decide : ¬ Even (3:Int))]; decide
  · rw [h4]
    by_cases hlt : y - ((4:Int):Real) < 1/2
    · rw [if_pos hlt]
    · rw [if_neg hlt, if_neg (by push_cast; linarith), if_pos (by decide : Even (4:Int))]

/-- Rational bounds on the fifth root of `1.21`:
`1.035 ≤ 1.21 ^ (1/5) ≤ 1.045`. -/
theorem cagr_root_bounds :
    (207:Real)/200 ≤ ((121:Real)/100) ^ ((1:Real)/5)
    ∧ ((121:Real)/100) ^ ((1:Real)/5) ≤ (209:Real)/200 := by
  have key : ∀ a : Real, 0 ≤ a → (a ^ (5:ℕ)) ^ ((1:Real)/5) = a := by
    intro a ha
    rw [← Real.rpow_natCast a 5, ← Real.rpow_mul ha]
    norm_num
  constructor
  · have hle : ((207:Real)/200) ^ (5:ℕ) ≤ (121:Real)/100 := by norm_num
    have hmono := Real.rpow_le_rpow (by positivity) hle (by norm_num : (0:Real) ≤ 1/5)
    rwa [key (207/200) (by norm_num)] at hmono
  · have hle : (121:Real)/100 ≤ ((209:Real)/200) ^ (5:ℕ) := by norm_num
    have hmono := Real.rpow_le_rpow (by positivity) hle (by norm_num : (0:Real) ≤ 1/5)
    rwa [key (209/200) (by norm_num)] at hmono

/-- The success path of the CAGR routine: six reports, both endpoints
convertible and strictly positive. -/
theorem cagr_success (st : Statement) (value_key : String) (vl ve : PyNum)
    (h6 : ¬ st.annualReports.length < 6)
    (hl : convert_num ((st.annualReports.headD []).get value_key) = some vl)
    (he : convert_num (((st.annualReports.drop 5).headD []).get value_key) = some ve)
    (hvl : 0 < vl.toRat) (hve : 0 < ve.toRat) :
    compute_5yr_cagr_from_annuals (some st) value_key
      = some (roundR2 (((vl.toRat : Real) / (ve.toRat : Real)) ^ ((1:Real)/5) - 1)) := by
  simp only [compute_5yr_cagr_from_annuals, if_neg h6, hl, he]
  rw [if_neg (fun hc => hc.elim (absurd hve ∘ not_lt.mpr) (absurd hvl ∘ not_lt.mpr))]

/-- Claim C3: `compute_5yr_cagr_from_annuals` is `None` for a missing
statement, fewer than six annual reports, a non-convertible endpoint or a
non-positive endpoint; otherwise it returns `(v0/v5) ** (1/5) - 1` rounded
to two decimals — in particular, revenues `121` over `100` yield `0.04`. -/
theorem C3_cagr_spec :
    (∀ key, compute_5yr_cagr_from_annuals none key = none)
    ∧ (∀ (st : Statement) (key : String), st.annualReports.length < 6 →
        compute_5yr_cagr_from_annuals (some st) key = none)
    ∧ (∀ (st : Statement) (key : String),
        (convert_num ((st.annualReports.headD []).get key) = none ∨
         convert_num (((st.annualReports.drop 5).headD []).get key) = none) →
        compute_5yr_cagr_from_annuals (some st) key = none)
    ∧ (∀ (st : Statement) (key : String) (vl ve : PyNum),
        convert_num ((st.annualReports.headD []).get key) = some vl →
        convert_num (((st.annualReports.drop 5).headD []).get key) = some ve →
        (ve.toRat ≤ 0 ∨ vl.toRat ≤ 0) →
        compute_5yr_cagr_from_annuals (some st) key = none)
    ∧ (∀ (st : Statement) (key : String) (vl ve : PyNum),
        ¬ st.annualReports.length < 6 →
        convert_num ((st.annualReports.headD []).get key) = some vl →
        convert_num (((st.annualReports.drop 5).headD []).get key) = some ve →
        0 < vl.toRat → 0 < ve.toRat →
        compute_5yr_cagr_from_annuals (some st) key
          = some (roundR2 (((vl.toRat : Real) / (ve.toRat : Real)) ^ ((1:Real)/5) - 1)))
    ∧ compute_5yr_cagr_from_annuals (some sampleCagrStatement) "totalRevenue"
        = some ((4:Real)/100) := by
  refine ⟨fun _ => rfl, ?_, ?_, ?_, fun st k vl ve h6 hl he hvl hve =>
    cagr_success st k vl ve h6 hl he hvl hve, ?_⟩
  · intro st key h
    simp [compute_5yr_cagr_from_annuals, h]
  · intro st key h
    by_cases h6 : st.annualReports.length < 6
    · simp [compute_5yr_cagr_from_annuals, h6]
    · rcases h with h | h
      · cases hy : convert_num (((st.annualReports.drop 5).headD []).get key) <;>
          · simp only [compute_5yr_cagr_from_annuals]
            rw [if_neg h6, h, hy]
      · cases hx : convert_num ((st.annualReports.headD []).get key) <;>
          · simp only [compute_5yr_cagr_from_annuals]
            rw [if_neg h6, h, hx]
  · intro st key vl ve hl he h
    by_cases h6 : st.annualReports.length < 6
    · simp [compute_5yr_cagr_from_annuals, h6]
    · simp only [compute_5yr_cagr_from_annuals, if_neg h6, hl, he]
      rw [if_pos h]
  · have h121 : convert_num ((sampleCagrStatement.annualReports.headD []).get "totalRevenue")
        = some (.i 121) := by decide
    have h100 : convert_num
        (((sampleCagrStatement.annualReports.drop 5).headD []).get "totalRevenue")
        = some (.i 100) := by decide
    rw [cagr_success sampleCagrStatement "totalRevenue" (.i 121) (.i 100)
      (by decide) h121 h100
      (by norm_num [PyNum.toRat]) (by norm_num [PyNum.toRat])]
    have hbase : (((PyNum.i 121).toRat : Real) / ((PyNum.i 100).toRat : Real))
        = (121:Real)/100 := by
      norm_num [PyNum.toRat]
    rw [hbase]
    obtain ⟨hb1, hb2⟩ := cagr_root_bounds
    have hr : rheR ((((121:Real)/100) ^ ((1:Real)/5) - 1) * 100) = 4 :=
      rheR_mid _ (by linarith) (by linarith)
    simp only [roundR2, hr]
    norm_num

/-- Witness for C3: too few reports, a missing field and a zero earlier
endpoint each yield `None`. -/
theorem C3_cagr_spec_witness :
    compute_5yr_cagr_from_annuals
      (some (Statement.mk [[("totalRevenue", "121")]] [])) "totalRevenue" = none
    ∧ compute_5yr_cagr_from_annuals (some sampleCagrStatement) "missingField" = none
    ∧ compute_5yr_cagr_from_annuals
      (some (Statement.mk
        [[("totalRevenue", "121")], [], [], [], [], [("totalRevenue", "0")]] []))
      "totalRevenue" = none := by
  refine ⟨C3_cagr_spec.2.1 _ "totalRevenue" (by decide),
    C3_cagr_spec.2.2.1 sampleCagrStatement "missingField" (Or.inl (by decide)),
    C3_cagr_spec.2.2.2.1 _ "totalRevenue" (.i 121) (.i 0) (by decide) (by decide)
      (Or.inl (by norm_num [PyNum.toRat]))⟩

end FundApp

